import Mathlib

/-!
Verification of the `bl` repository packaging descriptor (`setup.py`).

The repository's only source file is `setup.py`: two imports (`io`, `re`),
one `from setuptools import setup`, and a single `setup(...)` invocation
whose arguments are all literals.  We embed the module as a list of
statements whose only expression forms are the ones Python offers at those
positions (string/bool literals, list literals, the empty dict, plus the
environment-reading forms `io.open(...).read()`, `re.search`, `os.getenv`
and a file write, so that dependence on the outside world is expressible),
and give it an evaluator parameterised by an external environment.
-/

/-- The external environment a Python module evaluation could observe:
file contents, a regular-expression search oracle, and process
environment variables. -/
structure Env where
  fileContents : String → Option String
  regexSearch : String → String → Option String
  envVars : String → Option String

/-- An environment in which every lookup fails. -/
def emptyEnv : Env :=
  { fileContents := fun _ => none
    regexSearch := fun _ _ => none
    envVars := fun _ => none }

mutual
/-- Python expressions as they may appear at argument positions of the
`setup(...)` call: literals, plus forms whose value depends on the
external environment. -/
inductive PyExpr where
  | strLit : String → PyExpr
  | boolLit : Bool → PyExpr
  | listOf : PyExprList → PyExpr
  | emptyDict : PyExpr
  | ioOpenRead : String → PyExpr
  | reSearch : String → PyExpr → PyExpr
  | getenv : String → PyExpr
  deriving DecidableEq

/-- A list of Python expressions (spelled out so the evaluator's mutual
recursion is structural). -/
inductive PyExprList where
  | nil : PyExprList
  | cons : PyExpr → PyExprList → PyExprList
  deriving DecidableEq
end

mutual
/-- Python run-time values produced by evaluating the expressions above. -/
inductive PyValue where
  | str : String → PyValue
  | bool : Bool → PyValue
  | list : PyValueList → PyValue
  | dict : PyDict → PyValue
  deriving DecidableEq

/-- A list of Python values. -/
inductive PyValueList where
  | nil : PyValueList
  | cons : PyValue → PyValueList → PyValueList
  deriving DecidableEq

/-- A Python dict with string keys. -/
inductive PyDict where
  | nil : PyDict
  | cons : String → PyValue → PyDict → PyDict
  deriving DecidableEq
end

mutual
/-- Evaluate an expression in an environment.  Literal forms ignore the
environment; `ioOpenRead`, `reSearch` and `getenv` consult it. -/
def evalExpr : PyExpr → Env → Option PyValue
  | .strLit s, _ => some (.str s)
  | .boolLit b, _ => some (.bool b)
  | .listOf es, env =>
      match evalExprList es env with
      | some vs => some (.list vs)
      | none => none
  | .emptyDict, _ => some (.dict .nil)
  | .ioOpenRead path, env =>
      match env.fileContents path with
      | some s => some (.str s)
      | none => none
  | .reSearch pat e, env =>
      match evalExpr e env with
      | some (.str s) =>
          match env.regexSearch pat s with
          | some m => some (.str m)
          | none => none
      | _ => none
  | .getenv k, env =>
      match env.envVars k with
      | some s => some (.str s)
      | none => none

/-- Evaluate a list of expressions, failing if any element fails. -/
def evalExprList : PyExprList → Env → Option PyValueList
  | .nil, _ => some .nil
  | .cons e es, env =>
      match evalExpr e env with
      | some v =>
          match evalExprList es env with
          | some vs => some (.cons v vs)
          | none => none
      | none => none
end

/-- Top-level statements of a Python module of this shape: imports, the
`setup(...)` call with keyword arguments, and the constructs the spec says
are absent (function/class definitions, loops, conditionals, assignments,
file writes). -/
inductive Stmt where
  | importModule : String → Stmt
  | fromImport : String → String → Stmt
  | callSetup : List (String × PyExpr) → Stmt
  | funcDef : String → Stmt
  | classDef : String → Stmt
  | forLoop : Stmt
  | whileLoop : Stmt
  | ifStmt : Stmt
  | assign : String → PyExpr → Stmt
  | writeFileStmt : String → PyExpr → Stmt
  deriving DecidableEq

/-- An observable side effect of evaluating a module. -/
inductive Effect where
  | fileWrite : String → Effect
  deriving DecidableEq

/-- Evaluate a keyword-argument list, failing if any value fails. -/
def evalKwargs : List (String × PyExpr) → Env → Option (List (String × PyValue))
  | [], _ => some []
  | (k, e) :: rest, env =>
      match evalExpr e env with
      | some v =>
          match evalKwargs rest env with
          | some vs => some ((k, v) :: vs)
          | none => none
      | none => none

/-- Run the statements of a module in order, accumulating the metadata of
the last `setup(...)` call and the list of side effects. -/
def evalStmtsAux :
    List Stmt → Env → Option (List (String × PyValue)) → List Effect →
    Option (List (String × PyValue)) × List Effect
  | [], _, acc, effs => (acc, effs)
  | s :: rest, env, acc, effs =>
      match s with
      | .callSetup kw => evalStmtsAux rest env (evalKwargs kw env) effs
      | .writeFileStmt path _ => evalStmtsAux rest env acc (effs ++ [.fileWrite path])
      | _ => evalStmtsAux rest env acc effs

/-- Evaluate a module: the metadata record handed to `setup`, if any,
together with the side effects performed. -/
def evalModule (stmts : List Stmt) (env : Env) :
    Option (List (String × PyValue)) × List Effect :=
  evalStmtsAux stmts env none []

/-- The keyword arguments of the single `setup(...)` invocation of
`setup.py`, in source order, all literal. -/
def setupKwargs : List (String × PyExpr) :=
  [ ("name", .strLit "bl")
  , ("version", .strLit "1.0")
  , ("include_package_data", .boolLit true)
  , ("license", .strLit "GPLv3")
  , ("author", .strLit "Carlo De Pieri")
  , ("description", .strLit "An utility to manage my bluetooth headsets and quickly fix them when they do not connect")
  , ("scripts", .listOf (.cons (.strLit "bl") .nil))
  , ("install_requires", .listOf (.cons (.strLit "appdirs>=1.4.4") (.cons (.strLit "pexpect>=4.8.0") .nil)))
  , ("extras_require", .emptyDict) ]

/-- The whole of `setup.py`: `import io`, `import re`,
`from setuptools import setup`, then the `setup(...)` call. -/
def setupPyStmts : List Stmt :=
  [ .importModule "io"
  , .importModule "re"
  , .fromImport "setuptools" "setup"
  , .callSetup setupKwargs ]

/-- The constant metadata record the module evaluates to. -/
def blMetadata : List (String × PyValue) :=
  [ ("name", .str "bl")
  , ("version", .str "1.0")
  , ("include_package_data", .bool true)
  , ("license", .str "GPLv3")
  , ("author", .str "Carlo De Pieri")
  , ("description", .str "An utility to manage my bluetooth headsets and quickly fix them when they do not connect")
  , ("scripts", .list (.cons (.str "bl") .nil))
  , ("install_requires", .list (.cons (.str "appdirs>=1.4.4") (.cons (.str "pexpect>=4.8.0") .nil)))
  , ("extras_require", .dict .nil) ]

/-- Look a key up in a keyword-argument list. -/
def kwLookup {α : Type} : List (String × α) → String → Option α
  | [], _ => none
  | (k, v) :: rest, key => if k = key then some v else kwLookup rest key

/-- The strings of a list of string-literal expressions, if it is one. -/
def exprStrings : PyExprList → Option (List String)
  | .nil => some []
  | .cons (.strLit s) es =>
      match exprStrings es with
      | some ss => some (s :: ss)
      | none => none
  | .cons _ _ => none

/-- The `scripts` list declared by the `setup(...)` call. -/
def declaredScripts : Option (List String) :=
  match kwLookup setupKwargs "scripts" with
  | some (.listOf es) => exprStrings es
  | _ => none

/-- The `install_requires` list declared by the `setup(...)` call. -/
def declaredRequires : Option (List String) :=
  match kwLookup setupKwargs "install_requires" with
  | some (.listOf es) => exprStrings es
  | _ => none

/-- The declared runtime dependency constraints. -/
def installRequires : List String := declaredRequires.getD []

mutual
/-- Whether an expression consults the external environment. -/
def usesEnv : PyExpr → Bool
  | .strLit _ => false
  | .boolLit _ => false
  | .listOf es => usesEnvList es
  | .emptyDict => false
  | .ioOpenRead _ => true
  | .reSearch _ _ => true
  | .getenv _ => true

/-- Whether any expression of a list consults the external environment. -/
def usesEnvList : PyExprList → Bool
  | .nil => false
  | .cons e es => usesEnv e || usesEnvList es
end

/-- Whether a statement is an import. -/
def Stmt.isImport : Stmt → Bool
  | .importModule _ => true
  | .fromImport _ _ => true
  | _ => false

/-- Whether a statement is the `setup(...)` metadata invocation. -/
def Stmt.isSetupCall : Stmt → Bool
  | .callSetup _ => true
  | _ => false

/-- Whether a statement defines a function, a class, a loop, a conditional,
an assignment, or a file write: any algorithmic or state-bearing construct. -/
def Stmt.definesLogic : Stmt → Bool
  | .funcDef _ => true
  | .classDef _ => true
  | .forLoop => true
  | .whileLoop => true
  | .ifStmt => true
  | .assign _ _ => true
  | .writeFileStmt _ _ => true
  | _ => false

/-- Drop the `import` statements of the named modules from a module. -/
def removeImports (ms : List String) (stmts : List Stmt) : List Stmt :=
  stmts.filter fun s =>
    match s with
    | .importModule m => !ms.contains m
    | _ => true

/-- Look a string key up in a Python dict value. -/
def PyDict.lookup : PyDict → String → Option PyValue
  | .nil, _ => none
  | .cons k v rest, key => if k = key then some v else PyDict.lookup rest key

/-- The strings of a Python list-of-strings value, if it is one. -/
def valueStrings : PyValueList → Option (List String)
  | .nil => some []
  | .cons (.str s) vs =>
      match valueStrings vs with
      | some ss => some (s :: ss)
      | none => none
  | .cons _ _ => none

/-- The `extras_require` mapping declared by the `setup(...)` call,
evaluated (it is a literal, so any environment gives the same dict). -/
def extrasDict : PyDict :=
  match kwLookup setupKwargs "extras_require" with
  | some e =>
      match evalExpr e emptyEnv with
      | some (.dict d) => d
      | _ => .nil
  | none => .nil

/-- The dependencies a pip install with the given extras selector pulls in:
the base requirements plus whatever the extras mapping holds at that key. -/
def depsWithExtra (extra : String) : List String :=
  installRequires ++
    (match extrasDict.lookup extra with
     | some (.list vs) => (valueStrings vs).getD []
     | _ => [])

/-! Requirement-string constraints (PEP-508-style `name OP version`). -/

/-- A version comparison operator of a dependency specifier. -/
inductive CmpOp where
  | ge | gt | le | lt | eq | ne | compatible
  deriving DecidableEq

/-- A single parsed dependency constraint. -/
structure Req where
  name : String
  op : CmpOp
  minVer : List Nat
  deriving DecidableEq

/-- Characters that take part in version-comparison operators or separate
multiple specifiers. -/
def isOpChar (c : Char) : Bool :=
  c = '<' || c = '>' || c = '=' || c = '!' || c = '~' || c = ','

/-- Split a requirement string at its first comparison operator. -/
def splitOp : List Char → Option (List Char × CmpOp × List Char)
  | [] => none
  | '>' :: '=' :: rest => some ([], .ge, rest)
  | '<' :: '=' :: rest => some ([], .le, rest)
  | '=' :: '=' :: rest => some ([], .eq, rest)
  | '!' :: '=' :: rest => some ([], .ne, rest)
  | '~' :: '=' :: rest => some ([], .compatible, rest)
  | '>' :: rest => some ([], .gt, rest)
  | '<' :: rest => some ([], .lt, rest)
  | c :: rest =>
      match splitOp rest with
      | some (n, op, v) => some (c :: n, op, v)
      | none => none

/-- Read a non-empty run of decimal digits as a number. -/
def digitsToNat : List Char → Option Nat
  | [] => none
  | cs => cs.foldlM (fun acc c => if c.isDigit then some (acc * 10 + (c.toNat - 48)) else none) 0

/-- Split a character list on dots. -/
def splitDots : List Char → List (List Char)
  | [] => [[]]
  | '.' :: rest => [] :: splitDots rest
  | c :: rest =>
      match splitDots rest with
      | [] => [[c]]
      | g :: gs => (c :: g) :: gs

/-- Read a dotted numeric version such as `1.4.4`. -/
def readVersion (cs : List Char) : Option (List Nat) :=
  (splitDots cs).mapM digitsToNat

/-- Parse a requirement string of the single-specifier form
`name OP version`, rejecting any further operator characters. -/
def parseConstraint (r : String) : Option Req :=
  match splitOp r.data with
  | some (n, op, v) =>
      if n ≠ [] && n.all (fun c => !isOpChar c) && v.all (fun c => !isOpChar c) then
        match readVersion v with
        | some ver => some { name := String.mk n, op := op, minVer := ver }
        | none => none
      else none
  | none => none

/-- Lexicographic order on dotted versions; a missing component is lower. -/
def verLe : List Nat → List Nat → Bool
  | [], _ => true
  | _ :: _, [] => false
  | a :: as, b :: bs => a < b || (a = b && verLe as bs)

/-- Strict lexicographic order on dotted versions. -/
def verLt (v w : List Nat) : Bool := verLe v w && !verLe w v

/-- Whether an installed version satisfies a parsed constraint. -/
def constraintSatisfied (c : Req) (w : List Nat) : Bool :=
  match c.op with
  | .ge => verLe c.minVer w
  | .gt => verLt c.minVer w
  | .le => verLe w c.minVer
  | .lt => verLt w c.minVer
  | .eq => c.minVer = w
  | .ne => !(c.minVer = w : Bool)
  | .compatible =>
      verLe c.minVer w && (w.take (c.minVer.length - 1) = c.minVer.take (c.minVer.length - 1) : Bool)

/-! The `bl` script itself is absent from the supplied source: only its
declaration as an installed script exists in `setup.py`.  The session
driver below is therefore modelled from the spec, not translated from
code. -/

/-- A command sent to the interactive Bluetooth control shell. -/
inductive BtCmd where
  | selectController | disconnect | remove | scan | pair | connect | trust
  deriving DecidableEq

/-- The state of the target headset as observed by an invocation. -/
structure HeadsetStatus where
  connected : Bool
  misbehaving : Bool
  deriving DecidableEq

/-- Modelled from the spec: the driver detects a misbehaving or
disconnected headset. -/
def detectsProblem (st : HeadsetStatus) : Bool :=
  !st.connected || st.misbehaving

/-- Modelled from the spec: the scripted sequence of commands (select
controller, disconnect, remove, scan, pair, connect, trust). -/
def repairSequence : List BtCmd :=
  [.selectController, .disconnect, .remove, .scan, .pair, .connect, .trust]

/-- Modelled from the spec: the commands one invocation sends — the full
repair sequence when a problem is detected, nothing otherwise. -/
def blSessionCommands (st : HeadsetStatus) : List BtCmd :=
  if detectsProblem st then repairSequence else []

/-- One run of the installed `bl` executable: the child process it spawns
and the commands it scripts into it. -/
structure SessionRun where
  spawnedShell : String
  sentCommands : List BtCmd
  deriving DecidableEq

/-- Modelled from the spec: an invocation of `bl` spawns the system
Bluetooth control shell as a child process and drives it with the
scripted command sequence. -/
def blInvocation (st : HeadsetStatus) : SessionRun :=
  { spawnedShell := "bluetoothctl", sentCommands := blSessionCommands st }

/-- The parts of the machine a run could touch: the OS Bluetooth stack's
device registry and the user's files. -/
structure World where
  btDevices : List String
  userFiles : List (String × String)
  deriving DecidableEq

/-- Modelled from the spec's glossary: a Bluetooth shell command updates
only the OS Bluetooth subsystem's registry. -/
def applyBtCmd (dev : String) (bt : List String) : BtCmd → List String
  | .remove => bt.filter (fun d => d ≠ dev)
  | .pair => dev :: bt.filter (fun d => d ≠ dev)
  | _ => bt

/-- Modelled from the spec: the effect of one `bl` run on the machine — the
scripted commands are applied to the Bluetooth stack and nothing else. -/
def blRunWorld (st : HeadsetStatus) (dev : String) (w : World) : World :=
  { w with btDevices := (blSessionCommands st).foldl (applyBtCmd dev) w.btDevices }

/-! Claim theorems. -/

/-- Claim C1: the `setup()` invocation declares exactly one installable
script, and its name is `bl`: the `scripts` field equals the one-element
list `["bl"]`, so a single executable named `bl` is installed and no
other. -/
theorem scripts_field_single_bl :
    declaredScripts = some ["bl"] ∧
    (declaredScripts.getD []).length = 1 ∧
    kwLookup blMetadata "scripts" = some (.list (.cons (.str "bl") .nil)) := by
  refine ⟨by decide, by decide, by decide⟩

/-- Claim C2: the `setup()` invocation declares exactly two runtime
dependencies, `appdirs>=1.4.4` and `pexpect>=4.8.0`, and no others. -/
theorem install_requires_exactly_two :
    declaredRequires = some ["appdirs>=1.4.4", "pexpect>=4.8.0"] ∧
    installRequires.length = 2 ∧
    kwLookup blMetadata "install_requires" =
      some (.list (.cons (.str "appdirs>=1.4.4") (.cons (.str "pexpect>=4.8.0") .nil))) := by
  refine ⟨by decide, by decide, by decide⟩

/-- Claim C3: every statement of the module is an import or the single
`setup()` metadata invocation; no function, class, loop, conditional,
assignment or write is defined; and evaluating the module yields the
constant metadata record with no side effects, in every environment. -/
theorem module_is_constant_metadata :
    (setupPyStmts.all fun s => s.isImport || s.isSetupCall) = true ∧
    (setupPyStmts.filter Stmt.isSetupCall).length = 1 ∧
    (setupPyStmts.all fun s => ! s.definesLogic) = true ∧
    ∀ env, evalModule setupPyStmts env = (some blMetadata, []) := by
  refine ⟨by decide, by decide, by decide, fun env => rfl⟩

/-- Claim C4: an invocation of the installed `bl` executable that detects
a misbehaving or disconnected headset spawns the system Bluetooth control
shell as a child process and drives it through the scripted repair
sequence, which contains remove, pair and reconnect in that order
(session driver modelled from the spec; the script is absent from the
supplied source). -/
theorem bl_repairs_on_problem (st : HeadsetStatus)
    (h : detectsProblem st = true) :
    (blInvocation st).spawnedShell = "bluetoothctl" ∧
    (blInvocation st).sentCommands = repairSequence ∧
    List.Sublist [BtCmd.remove, BtCmd.pair, BtCmd.connect]
      (blInvocation st).sentCommands := by
  have hc : (blInvocation st).sentCommands = repairSequence := by
    show blSessionCommands st = repairSequence
    simp [blSessionCommands, h]
  refine ⟨rfl, hc, ?_⟩
  rw [hc]
  decide

/-- Witness for C4 at the concrete status of a disconnected,
well-behaving headset. -/
theorem bl_repairs_on_problem_witness :
    detectsProblem ⟨false, false⟩ = true ∧
    ((blInvocation ⟨false, false⟩).spawnedShell = "bluetoothctl" ∧
     (blInvocation ⟨false, false⟩).sentCommands = repairSequence ∧
     List.Sublist [BtCmd.remove, BtCmd.pair, BtCmd.connect]
       (blInvocation ⟨false, false⟩).sentCommands) :=
  ⟨by decide, bl_repairs_on_problem ⟨false, false⟩ (by decide)⟩

/-- Claim C5: the `setup()` invocation declares no entry points, no
console-script options, none of its keyword arguments reads the outside
environment, and its keys are exactly the nine metadata fields of the
source. -/
theorem no_interfaces_declared :
    kwLookup setupKwargs "entry_points" = none ∧
    kwLookup setupKwargs "console_scripts" = none ∧
    (setupKwargs.all fun kv => ! usesEnv kv.2) = true ∧
    setupKwargs.map Prod.fst =
      ["name", "version", "include_package_data", "license", "author",
       "description", "scripts", "install_requires", "extras_require"] := by
  refine ⟨by decide, by decide, by decide, by decide⟩

/-- Claim C6: the program keeps no persistent state of its own — a run of
the modelled session driver leaves the user's files untouched, touching
only the Bluetooth stack, and the supplied `setup.py` performs no write
effect and declares no data files or package data. -/
theorem no_persistent_state :
    (∀ st dev w, (blRunWorld st dev w).userFiles = w.userFiles) ∧
    (∀ env, (evalModule setupPyStmts env).2 = []) ∧
    kwLookup setupKwargs "data_files" = none ∧
    kwLookup setupKwargs "package_data" = none := by
  refine ⟨fun st dev w => rfl, fun env => rfl, by decide, by decide⟩

/-- Claim C7: `extras_require` is the empty mapping, so no extras install
target exists and installing with any extras selector adds no dependency
beyond the two of `install_requires`. -/
theorem extras_require_empty :
    kwLookup setupKwargs "extras_require" = some PyExpr.emptyDict ∧
    extrasDict = PyDict.nil ∧
    ∀ extra, depsWithExtra extra = installRequires := by
  refine ⟨by decide, by decide, fun extra => rfl⟩

/-- Claim C8: evaluating the packaging descriptor is deterministic and
independent of the unused `io` and `re` imports: any two environments
yield the same result, removing those imports changes nothing, and the
result is the constant metadata record. -/
theorem metadata_deterministic_and_import_independent :
    (∀ e₁ e₂, evalModule setupPyStmts e₁ = evalModule setupPyStmts e₂) ∧
    (∀ env, evalModule (removeImports ["io", "re"] setupPyStmts) env =
      evalModule setupPyStmts env) ∧
    (∀ env, evalModule setupPyStmts env = (some blMetadata, [])) :=
  ⟨fun _ _ => rfl, fun _ => rfl, fun _ => rfl⟩

/-- Claim C9: every declared dependency constraint is a lower bound only:
each entry parses as `name >= version` with no other operator, and any
installed version at or above the minimum satisfies the constraint. -/
theorem requires_are_lower_bounds :
    installRequires.map parseConstraint =
      [some ⟨"appdirs", CmpOp.ge, [1, 4, 4]⟩,
       some ⟨"pexpect", CmpOp.ge, [4, 8, 0]⟩] ∧
    ∀ r c, r ∈ installRequires → parseConstraint r = some c →
      c.op = CmpOp.ge ∧ ∀ w, verLe c.minVer w = true →
        constraintSatisfied c w = true := by
  refine ⟨by decide, ?_⟩
  intro r c hr hp
  have hi : installRequires = ["appdirs>=1.4.4", "pexpect>=4.8.0"] := by decide
  rw [hi] at hr
  have hr2 : r = "appdirs>=1.4.4" ∨ r = "pexpect>=4.8.0" := by simpa using hr
  rcases hr2 with rfl | rfl
  · have he : parseConstraint "appdirs>=1.4.4" =
        some ⟨"appdirs", CmpOp.ge, [1, 4, 4]⟩ := by decide
    rw [he] at hp
    obtain rfl := Option.some_inj.mp hp
    exact ⟨rfl, fun w hw => hw⟩
  · have he : parseConstraint "pexpect>=4.8.0" =
        some ⟨"pexpect", CmpOp.ge, [4, 8, 0]⟩ := by decide
    rw [he] at hp
    obtain rfl := Option.some_inj.mp hp
    exact ⟨rfl, fun w hw => hw⟩

/-- Witness for C9 at the concrete entry `appdirs>=1.4.4` and the
installed version `2.0.0`, above the declared minimum. -/
theorem requires_are_lower_bounds_witness :
    ("appdirs>=1.4.4" ∈ installRequires ∧
     parseConstraint "appdirs>=1.4.4" =
       some ⟨"appdirs", CmpOp.ge, [1, 4, 4]⟩) ∧
    Req.op ⟨"appdirs", CmpOp.ge, [1, 4, 4]⟩ = CmpOp.ge ∧
    constraintSatisfied ⟨"appdirs", CmpOp.ge, [1, 4, 4]⟩ [2, 0, 0] = true := by
  have h := (requires_are_lower_bounds).2 "appdirs>=1.4.4"
    ⟨"appdirs", CmpOp.ge, [1, 4, 4]⟩ (by decide) (by decide)
  exact ⟨⟨by decide, by decide⟩, h.1, h.2 [2, 0, 0] (by decide)⟩
